import Mathlib

/-
Shallow embedding of the ShadowFx trading monitor (src/app.py): the trade
registry and its state transitions, the breakout signal engine, symbol
conversion and data fetching, alert subscription, and trend notification.
Prices are modelled as rationals; the global mutable dictionaries of the
source are modelled as association lists with string keys, mirroring the
insertion-ordered, unique-key behaviour of Python dicts.
-/

set_option autoImplicit false

namespace ShadowFx

/-- Generic lookup in an association list with string keys: returns the value
of the first entry whose key matches, mirroring a Python dict read. -/
def alistLookup {α : Type} : List (String × α) → String → Option α
  | [], _ => none
  | (k, v) :: rest, key => if k = key then some v else alistLookup rest key

/-- Removal of the (first) entry with the given key, mirroring dict.pop. -/
def alistRemove {α : Type} : List (String × α) → String → List (String × α)
  | [], _ => []
  | (k, v) :: rest, key =>
      if k = key then rest else (k, v) :: alistRemove rest key

/-- Keyed update, mirroring a Python dict assignment: replaces the value of an
existing key in place, or appends a new entry at the end (insertion order). -/
def alistSet {α : Type} : List (String × α) → String → α → List (String × α)
  | [], key, value => [(key, value)]
  | (k, v) :: rest, key, value =>
      if k = key then (k, value) :: rest else (k, v) :: alistSet rest key value

/-- One OHLC candle as carried by the data frames of the source: columns
time (epoch), open, high, low, close. Sequences are ordered newest-first
(index 0 is the most recent candle), matching the descending sort applied in
async_get_deriv_data. -/
structure Candle where
  epoch : Int
  open_p : Rat
  high : Rat
  low : Rat
  close : Rat
deriving DecidableEq, Repr

/-- One open trade as stored in the active_trades dict (src/app.py webhook). -/
structure Trade where
  symbol : String
  direction : String
  entry : Rat
  sl : Rat
  tp1 : Rat
  tp2 : Rat
  position_size : Rat
  breakeven : Bool
  user : String
deriving DecidableEq, Repr

/-- The mutable trade-registry state of the source: the active_trades dict
(keyed by trade id) and the append-only trade_history list of booleans. -/
structure TradeState where
  active_trades : List (String × Trade)
  trade_history : List Bool
deriving DecidableEq, Repr

/-- Stop-loss condition of check_market_conditions, line 276 of src/app.py:
BUY and price at or below stop, or SELL and price at or above stop. -/
abbrev sl_hit_cond (t : Trade) (price : Rat) : Prop :=
  (t.direction = "BUY" ∧ price ≤ t.sl) ∨ (t.direction = "SELL" ∧ t.sl ≤ price)

/-- Take-profit-2 condition of check_market_conditions, line 279. -/
abbrev tp2_hit_cond (t : Trade) (price : Rat) : Prop :=
  (t.direction = "BUY" ∧ t.tp2 ≤ price) ∨ (t.direction = "SELL" ∧ price ≤ t.tp2)

/-- Take-profit-1 (breakeven trigger) price condition of line 282;
the breakeven flag check is separate in the source and kept separate here. -/
abbrev tp1_reach_cond (t : Trade) (price : Rat) : Prop :=
  (t.direction = "BUY" ∧ t.tp1 ≤ price) ∨ (t.direction = "SELL" ∧ price ≤ t.tp1)

/-- Mirrors handle_sl_hit: pops the trade from active_trades; when it was
present, appends False to trade_history; when absent, leaves state unchanged. -/
def handle_sl_hit (s : TradeState) (trade_id : String) : TradeState :=
  match alistLookup s.active_trades trade_id with
  | none => s
  | some _ =>
      { active_trades := alistRemove s.active_trades trade_id
        trade_history := s.trade_history ++ [false] }

/-- Mirrors handle_tp2_hit: pops the trade; when present, appends True. -/
def handle_tp2_hit (s : TradeState) (trade_id : String) : TradeState :=
  match alistLookup s.active_trades trade_id with
  | none => s
  | some _ =>
      { active_trades := alistRemove s.active_trades trade_id
        trade_history := s.trade_history ++ [true] }

/-- Mirrors move_to_breakeven: when the trade id is present, sets its stop
to its entry and its breakeven flag to true; otherwise does nothing. -/
def move_to_breakeven (s : TradeState) (trade_id : String) : TradeState :=
  match alistLookup s.active_trades trade_id with
  | none => s
  | some trade =>
      let updated : Trade := { trade with sl := trade.entry, breakeven := true }
      { s with active_trades := alistSet s.active_trades trade_id updated }

/-- Outcome of one execution of the per-trade sweep body under the locking
discipline of the source: either the body runs to completion with the given
registry state, or the thread blocks forever trying to re-acquire the
non-reentrant trade lock it already holds; the carried state is the registry
state at the moment of blocking (the lock is acquired before any mutation,
so nothing has changed). -/
inductive SweepOutcome where
  | completed : TradeState → SweepOutcome
  | deadlocked : TradeState → SweepOutcome
deriving DecidableEq, Repr

/-- The per-trade body of check_market_conditions (lines 265 to 284 of
src/app.py), applied once the current price for the trade has been fetched,
together with the locking discipline of the source: trade_lock is a plain
non-reentrant threading.Lock (line 30), check_market_conditions acquires it
for the whole loop (line 263), and each of handle_sl_hit, handle_tp2_hit and
move_to_breakeven starts by acquiring it again (lines 289, 295, 301).
Re-acquiring a held non-reentrant lock from the same thread blocks forever,
and the with-statement blocks before the handler mutates anything, so the
stop-loss, take-profit-2 and breakeven branches each deadlock with the
registry unchanged; only the no-condition path (and the missing-id path)
completes, leaving the state as it was. -/
def check_market_conditions_trade (s : TradeState) (trade_id : String)
    (current_price : Rat) : SweepOutcome :=
  match alistLookup s.active_trades trade_id with
  | none => SweepOutcome.completed s
  | some trade =>
      if sl_hit_cond trade current_price then
        SweepOutcome.deadlocked s
      else if tp2_hit_cond trade current_price then
        SweepOutcome.deadlocked s
      else if trade.breakeven = false ∧ tp1_reach_cond trade current_price then
        SweepOutcome.deadlocked s
      else
        SweepOutcome.completed s

/-- Mirrors the risk-management defaults of src/app.py: the environment
fallbacks ACCOUNT_BALANCE=10000 and RISK_PERCENTAGE=1. -/
def DEFAULT_ACCOUNT_BALANCE : Rat := 10000

/-- Default risk percentage (1 percent). -/
def RISK_PERCENTAGE : Rat := 1

/-- Mirrors calculate_position_size: risk_amount = balance * (pct / 100);
a zero stop distance yields position size 0, otherwise risk_amount / distance. -/
def calculate_position_size (account_balance risk_percentage stop_loss_distance : Rat) :
    Rat :=
  if stop_loss_distance = 0 then 0
  else account_balance * (risk_percentage / 100) / stop_loss_distance

/-- Period-over-period fractional changes of a list of closes in ascending
time order, mirroring pandas pct_change followed by dropna (which drops only
the leading entry): change i = (c i - c (i-1)) / c (i-1). -/
def pct_changes : List Rat → List Rat
  | [] => []
  | [_] => []
  | a :: b :: rest => (b - a) / a :: pct_changes (b :: rest)

/-- Mirrors calculate_winrate: with fewer than 100 candles the statistic is
unavailable (the source returns the string N/A, modelled as none); otherwise
the percentage of positive period-over-period changes of the closes taken in
ascending time order (the input list is newest-first, hence the reverse). -/
def calculate_winrate (data : List Candle) : Option Rat :=
  if data.length < 100 then none
  else
    some ((((pct_changes ((data.reverse).map Candle.close)).filter
              (fun c => decide (0 < c))).length : Rat) /
          (((pct_changes ((data.reverse).map Candle.close)).length : Rat)) * 100)

/-- A breakout signal as built inline by analyze_price_action (lines 337 to
350 of src/app.py): direction, entry, stop and the two take-profit levels. -/
structure Signal where
  direction : String
  entry : Rat
  sl : Rat
  tp1 : Rat
  tp2 : Rat
deriving DecidableEq, Repr

/-- The breakout rule of analyze_price_action over the previous analysis
candle range and the current entry-timeframe close: strictly above the
previous high gives BUY with stop at the previous low, risk = entry - stop,
tp1 = entry + 2 risk, tp2 = entry + 4 risk; strictly below the previous low
gives SELL with stop at the previous high and the mirrored levels; otherwise
no signal. -/
def price_action_signal (prev_high prev_low current_price : Rat) : Option Signal :=
  if prev_high < current_price then
    some { direction := "BUY"
           entry := current_price
           sl := prev_low
           tp1 := current_price + 2 * (current_price - prev_low)
           tp2 := current_price + 4 * (current_price - prev_low) }
  else if current_price < prev_low then
    some { direction := "SELL"
           entry := current_price
           sl := prev_high
           tp1 := current_price - 2 * (prev_high - current_price)
           tp2 := current_price - 4 * (prev_high - current_price) }
  else
    none

/-- The analysis record returned by analyze_price_action on success. -/
structure Analysis where
  symbol : String
  signal : String
  winrate : Option Rat
  entry : Rat
  sl : Rat
  tp1 : Rat
  tp2 : Rat
  position_size : Rat
deriving DecidableEq, Repr

/-- Mirrors analyze_price_action: the two data-frame arguments are the
15min (analysis) and 1min (entry) candle sequences as fetched, newest-first;
none models a failed fetch. The analysis sequence must have at least 2
candles and the entry sequence at least 1, otherwise the result is none
(fail closed). prev high and low come from index 1 of the analysis sequence,
the current price from index 0 of the entry sequence. -/
def analyze_price_action (symbol : String)
    (df_15m df_1m : Option (List Candle)) : Option Analysis :=
  match df_15m, df_1m with
  | some (c0 :: prev :: rest), some (cur :: _) =>
      match price_action_signal prev.high prev.low cur.close with
      | none => none
      | some sig =>
          some { symbol := symbol
                 signal := sig.direction
                 winrate := calculate_winrate (c0 :: prev :: rest)
                 entry := sig.entry
                 sl := sig.sl
                 tp1 := sig.tp1
                 tp2 := sig.tp2
                 position_size :=
                   calculate_position_size DEFAULT_ACCOUNT_BALANCE RISK_PERCENTAGE
                     |sig.entry - sig.sl| }
  | _, _ => none

/-- An instrument mapping entry of SYMBOL_MAP: internal code and category.
The category is optional because convert_symbol returns category None for
unknown plain symbols. -/
structure SymbolConfig where
  symbol : String
  category : Option String
deriving DecidableEq, Repr

/-- The flat entries of SYMBOL_MAP in src/app.py (the nested VOLATILITY and
JUMP groups are reached only through the dedicated prefix branches of
convert_symbol and are modelled by their own tables below). -/
def SYMBOL_MAP_entries : List (String × SymbolConfig) :=
  [("EURUSD", ⟨"frxEURUSD", some "forex"⟩),
   ("GBPUSD", ⟨"frxGBPUSD", some "forex"⟩),
   ("USDJPY", ⟨"frxUSDJPY", some "forex"⟩),
   ("AUDUSD", ⟨"frxAUDUSD", some "forex"⟩),
   ("USDCAD", ⟨"frxUSDCAD", some "forex"⟩),
   ("USDCHF", ⟨"frxUSDCHF", some "forex"⟩),
   ("NZDUSD", ⟨"frxNZDUSD", some "forex"⟩),
   ("EURGBP", ⟨"frxEURGBP", some "forex"⟩),
   ("USDSEK", ⟨"frxUSDSEK", some "forex"⟩),
   ("USDNOK", ⟨"frxUSDNOK", some "forex"⟩),
   ("USDTRY", ⟨"frxUSDTRY", some "forex"⟩),
   ("EURJPY", ⟨"frxEURJPY", some "forex"⟩),
   ("GBPJPY", ⟨"frxGBPJPY", some "forex"⟩),
   ("XAUUSD", ⟨"XAUUSD", some "synthetic"⟩),
   ("XAGUSD", ⟨"SILVER", some "commodity"⟩),
   ("CL1", ⟨"CL_BRENT", some "commodity"⟩),
   ("NG1", ⟨"NG_HEN", some "commodity"⟩),
   ("CO1", ⟨"COAL", some "commodity"⟩),
   ("HG1", ⟨"XCUUSD", some "commodity"⟩),
   ("SPX", ⟨"SPX500", some "index"⟩),
   ("NDX", ⟨"NAS100", some "index"⟩),
   ("DJI", ⟨"DJ30", some "index"⟩),
   ("FTSE", ⟨"FTSE100", some "index"⟩),
   ("DAX", ⟨"DAX40", some "index"⟩),
   ("NIKKEI", ⟨"JP225", some "index"⟩),
   ("HSI", ⟨"HK50", some "index"⟩),
   ("ASX", ⟨"AUS200", some "index"⟩),
   ("CAC", ⟨"FRA40", some "index"⟩),
   ("BTCUSD", ⟨"BTCUSD", some "crypto"⟩),
   ("ETHUSD", ⟨"ETHUSD", some "crypto"⟩),
   ("XRPUSD", ⟨"XRPUSD", some "crypto"⟩),
   ("LTCUSD", ⟨"LTCUSD", some "crypto"⟩),
   ("BCHUSD", ⟨"BCHUSD", some "crypto"⟩),
   ("ADAUSD", ⟨"ADAUSD", some "crypto"⟩),
   ("DOTUSD", ⟨"DOTUSD", some "crypto"⟩),
   ("SOLUSD", ⟨"SOLUSD", some "crypto"⟩),
   ("SPY", ⟨"ETF_SPY", some "etf"⟩),
   ("QQQ", ⟨"ETF_QQQ", some "etf"⟩),
   ("GLD", ⟨"ETF_GLD", some "etf"⟩),
   ("XLF", ⟨"ETF_XLF", some "etf"⟩),
   ("IWM", ⟨"ETF_IWM", some "etf"⟩),
   ("EEM", ⟨"ETF_EEM", some "etf"⟩),
   ("AAPL", ⟨"stocksAAPL.us", some "stock"⟩),
   ("TSLA", ⟨"stocksTSLA.us", some "stock"⟩),
   ("AMZN", ⟨"stocksAMZN.us", some "stock"⟩),
   ("GOOGL", ⟨"stocksGOOGL.us", some "stock"⟩),
   ("MSFT", ⟨"stocksMSFT.us", some "stock"⟩),
   ("META", ⟨"stocksMETA.us", some "stock"⟩),
   ("NVDA", ⟨"stocksNVDA.us", some "stock"⟩),
   ("NFLX", ⟨"stocksNFLX.us", some "stock"⟩),
   ("BOOM1000", ⟨"BOOM1000", some "synthetic"⟩),
   ("BOOM300", ⟨"BOOM300", some "synthetic"⟩),
   ("BOOM500", ⟨"BOOM500", some "synthetic"⟩),
   ("BOOM600", ⟨"BOOM600", some "synthetic"⟩),
   ("BOOM900", ⟨"BOOM900", some "synthetic"⟩),
   ("CRASH1000", ⟨"CRASH1000", some "synthetic"⟩),
   ("CRASH300", ⟨"CRASH300", some "synthetic"⟩),
   ("CRASH500", ⟨"CRASH500", some "synthetic"⟩),
   ("CRASH600", ⟨"CRASH600", some "synthetic"⟩),
   ("CRASH900", ⟨"CRASH900", some "synthetic"⟩)]

/-- The STANDARD volatility group of SYMBOL_MAP. -/
def VOLATILITY_STANDARD : List (String × String) :=
  [("10", "1HZ10V"), ("25", "1HZ25V"), ("50", "1HZ50V"),
   ("75", "1HZ75SV"), ("100", "1HZ100V"), ("150", "1HZ150V")]

/-- The SHORT volatility group of SYMBOL_MAP. -/
def VOLATILITY_SHORT : List (String × String) :=
  [("10", "1HZ10SV"), ("25", "1HZ25SV"), ("50", "1HZ50SV"),
   ("75", "1HZ75V"), ("150", "1HZ150SV"), ("250", "1HZ250SV")]

/-- The JUMP group of SYMBOL_MAP. -/
def JUMP_MAP : List (String × String) :=
  [("10", "JD10"), ("25", "JD25"), ("50", "JD50"),
   ("75", "JD75"), ("100", "JD100")]

/-- Upper-casing of the symbol string as performed by .upper() in
convert_symbol, written over the character list with the same per-character
Char.toUpper so that it evaluates (String.toUpper itself is defined by
well-founded recursion over byte positions and does not reduce). -/
def string_upper (s : String) : String :=
  String.mk (s.data.map Char.toUpper)

/-- Character-list version of the startswith test used by convert_symbol
(the byte-position based String primitive is defined by well-founded
recursion and does not reduce; this one evaluates and agrees on all inputs). -/
def str_starts (s pre : String) : Bool :=
  pre.data.isPrefixOf s.data

/-- Character-list version of the endswith test, with the same rationale. -/
def str_ends (s post : String) : Bool :=
  post.data.isSuffixOf s.data

/-- Character-list version of dropping the first n characters, matching the
Python slice symbol[n:]. -/
def str_drop (s : String) (n : Nat) : String :=
  String.mk (s.data.drop n)

/-- Character-list version of dropping the last n characters, matching the
Python slice remainder[:-n]. -/
def str_dropRight (s : String) (n : Nat) : String :=
  String.mk (s.data.take (s.data.length - n))

/-- Mirrors convert_symbol: upper-cases the input, handles the VOLATILITY
and JUMP prefixed families through their nested tables (defaulting to the
raw symbol with category synthetic), and otherwise looks the symbol up in
the flat table, defaulting to the raw symbol with no category. -/
def convert_symbol (symbol0 : String) : SymbolConfig :=
  let symbol := string_upper symbol0
  if str_starts symbol "VOLATILITY" then
    let remainder := str_drop symbol 10
    let code :=
      if str_ends remainder "S" then
        alistLookup VOLATILITY_SHORT (str_dropRight remainder 1)
      else
        alistLookup VOLATILITY_STANDARD remainder
    match code with
    | some c => ⟨c, some "synthetic"⟩
    | none => ⟨symbol, some "synthetic"⟩
  else if str_starts symbol "JUMP" then
    match alistLookup JUMP_MAP (str_drop symbol 4) with
    | some c => ⟨c, some "synthetic"⟩
    | none => ⟨symbol, some "synthetic"⟩
  else
    match alistLookup SYMBOL_MAP_entries symbol with
    | some cfg => cfg
    | none => ⟨symbol, none⟩

/-- Mirrors GRANULARITY_MAP.get(interval, 60): 15min is 900 seconds, 1min is
60, anything else defaults to 60. -/
def GRANULARITY_MAP (interval : String) : Nat :=
  if interval = "15min" then 900 else if interval = "1min" then 60 else 60

/-- One external network call performed by get_deriv_data: either the
active-symbols listing or a candle-history request. -/
inductive FetchEvent where
  | activeSymbols : FetchEvent
  | candles : String → Nat → FetchEvent
deriving DecidableEq, Repr

/-- Number of candle-history fetches in a list of external calls. -/
def count_candle_fetches (events : List FetchEvent) : Nat :=
  (events.filter fun e =>
    match e with
    | FetchEvent.candles _ _ => true
    | FetchEvent.activeSymbols => false).length

/-- Mirrors get_deriv_data of src/app.py as a function of the external
responses for this one call: activeList is the symbol list the
active-symbols call would return, fetchResult the candle response of the
data source. The function keeps no state between calls (the source has no
cache); the second component records the external calls performed, in
order. Categories crypto and synthetic skip the active-symbol check. -/
def get_deriv_data (activeList : List String) (fetchResult : Option (List Candle))
    (symbol : String) (interval : String) :
    Option (List Candle) × List FetchEvent :=
  let config := convert_symbol symbol
  if config.category ≠ some "crypto" ∧ config.category ≠ some "synthetic" then
    if config.symbol ∈ activeList then
      (fetchResult,
       [FetchEvent.activeSymbols,
        FetchEvent.candles config.symbol (GRANULARITY_MAP interval)])
    else
      (none, [FetchEvent.activeSymbols])
  else
    (fetchResult, [FetchEvent.candles config.symbol (GRANULARITY_MAP interval)])

/-- Outcome reported by the ALERT branch of the webhook: the distinct
first-activation and already-active replies. -/
inductive SubscribeResult where
  | activated : SubscribeResult
  | alreadyActive : SubscribeResult
deriving DecidableEq, Repr

/-- First step of the ALERT branch: if the symbol has no entry in
user_alerts yet, install an empty subscriber list for it. -/
def ensure_symbol (user_alerts : List (String × List String)) (symbol : String) :
    List (String × List String) :=
  match alistLookup user_alerts symbol with
  | none => alistSet user_alerts symbol []
  | some _ => user_alerts

/-- Mirrors the ALERT branch of the webhook (lines 461 to 470 of src/app.py):
ensure the symbol key exists, then append the user to its subscriber list
when absent (reporting activation) or leave everything unchanged when the
user is already subscribed (reporting already-active). -/
def subscribe (user_alerts : List (String × List String)) (symbol user : String) :
    List (String × List String) × SubscribeResult :=
  if user ∈ (alistLookup (ensure_symbol user_alerts symbol) symbol).getD [] then
    (ensure_symbol user_alerts symbol, SubscribeResult.alreadyActive)
  else
    (alistSet (ensure_symbol user_alerts symbol) symbol
       ((alistLookup (ensure_symbol user_alerts symbol) symbol).getD [] ++ [user]),
     SubscribeResult.activated)

/-- Subscriber list currently stored for a symbol (empty when absent). -/
def subscribersOf (user_alerts : List (String × List String)) (symbol : String) :
    List String :=
  (alistLookup user_alerts symbol).getD []

/-- Mirrors notify_trend_change of src/app.py: builds the trend-change
message and sends it to every user in the list; the dispatches are modelled
as the returned (user, message) pairs, in order. -/
def notify_trend_change (symbol new_trend : String) (users : List String) :
    List (String × String) :=
  users.map fun user => (user, symbol ++ " Trend Changed: " ++ new_trend)

/-- Modelled from the spec: the trend-recomputation step of the periodic
sweep for one subscribed instrument. The source file declares the
previous_trends store and the notify_trend_change dispatcher, but its
check_market_conditions revision does not contain the trend part of the
sweep; per spec section 4.5, once the current trend has been computed for an
instrument with subscribers: if a previous trend exists and differs,
dispatch to every current subscriber and update the stored trend; if none
exists, just store the current trend with no notification. Returns the
updated previous-trends store and the dispatched notifications. -/
def trend_sweep_step (previous_trends : List (String × String))
    (subscribers : List String) (symbol current_trend : String) :
    List (String × String) × List (String × String) :=
  match alistLookup previous_trends symbol with
  | none => (alistSet previous_trends symbol current_trend, [])
  | some prev =>
      if prev = current_trend then
        (previous_trends, [])
      else
        (alistSet previous_trends symbol current_trend,
         notify_trend_change symbol current_trend subscribers)

/-- Concrete BUY trade of the end-to-end scenario in the spec: entry 115,
stop 95, take-profits 155 and 195. -/
def tradeX : Trade :=
  { symbol := "X", direction := "BUY", entry := 115, sl := 95, tp1 := 155,
    tp2 := 195, position_size := 5, breakeven := false, user := "u1" }

/-- Registry state holding only tradeX under id T1, with empty history. -/
def stateX : TradeState :=
  { active_trades := [("T1", tradeX)], trade_history := [] }

/-- Concrete candles for the signal scenario: most recent analysis candle. -/
def candle_a0 : Candle :=
  { epoch := 2, open_p := 112, high := 118, low := 108, close := 114 }

/-- Previous analysis candle with high 110 and low 95. -/
def candle_prev : Candle :=
  { epoch := 1, open_p := 100, high := 110, low := 95, close := 109 }

/-- Latest entry-timeframe candle with close 115. -/
def candle_e : Candle :=
  { epoch := 3, open_p := 114, high := 116, low := 113, close := 115 }

/-- A first candle response of the external data source. -/
def candleA : Candle :=
  { epoch := 10, open_p := 1, high := 2, low := 1, close := 2 }

/-- A distinct second candle response of the external data source. -/
def candleB : Candle :=
  { epoch := 11, open_p := 2, high := 3, low := 2, close := 3 }

/-- The signal produced by the breakout rule on the scenario inputs. -/
def sigX : Signal :=
  { direction := "BUY", entry := 115, sl := 95, tp1 := 155, tp2 := 195 }

/-- The analysis record built from a produced signal, as assembled by
analyze_price_action from the signal tuple, the winrate statistic and the
position size. -/
def analysis_of_signal (symbol : String) (wr : Option Rat) (sig : Signal) : Analysis :=
  { symbol := symbol, signal := sig.direction, winrate := wr, entry := sig.entry,
    sl := sig.sl, tp1 := sig.tp1, tp2 := sig.tp2,
    position_size :=
      calculate_position_size DEFAULT_ACCOUNT_BALANCE RISK_PERCENTAGE |sig.entry - sig.sl| }

theorem alistLookup_set_self {α : Type} (l : List (String × α)) (k : String) (v : α) :
    alistLookup (alistSet l k v) k = some v := by
  induction l with
  | nil => simp [alistSet, alistLookup]
  | cons p rest ih =>
      obtain ⟨k0, v0⟩ := p
      by_cases hk : k0 = k
      · subst hk
        simp [alistSet, alistLookup]
      · simp [alistSet, alistLookup, hk, ih]

/-- Claim C1 (code bug): when an open trade meets the stop-loss condition,
the claimed transition to CLOSED_LOSS never completes: the sweep already
holds the non-reentrant trade lock and handle_sl_hit re-acquires it before
mutating anything, so the sweep body deadlocks with the registry unchanged:
the trade is not removed and no false entry is appended, regardless of the
other conditions. -/
theorem sl_hit_sweep_deadlocks (s : TradeState) (trade_id : String) (t : Trade)
    (price : Rat)
    (hlook : alistLookup s.active_trades trade_id = some t)
    (hsl : sl_hit_cond t price) :
    check_market_conditions_trade s trade_id price = SweepOutcome.deadlocked s := by
  unfold check_market_conditions_trade
  rw [hlook]
  simp only [if_pos hsl]

theorem sl_hit_sweep_deadlocks_witness :
    check_market_conditions_trade stateX "T1" 90 = SweepOutcome.deadlocked stateX :=
  sl_hit_sweep_deadlocks stateX "T1" tradeX 90 (by decide) (by decide)

/-- Claim C2 (code bug): when an open trade reaches take-profit-2 without
hitting the stop loss, the claimed transition to CLOSED_WIN never completes:
handle_tp2_hit re-acquires the non-reentrant trade lock already held by the
sweep, so the body deadlocks with the registry unchanged: the trade is not
removed and no true entry is appended. -/
theorem tp2_hit_sweep_deadlocks (s : TradeState) (trade_id : String) (t : Trade)
    (price : Rat)
    (hlook : alistLookup s.active_trades trade_id = some t)
    (hnsl : ¬ sl_hit_cond t price)
    (htp2 : tp2_hit_cond t price) :
    check_market_conditions_trade s trade_id price = SweepOutcome.deadlocked s := by
  unfold check_market_conditions_trade
  rw [hlook]
  simp only [if_neg hnsl, if_pos htp2]

theorem tp2_hit_sweep_deadlocks_witness :
    check_market_conditions_trade stateX "T1" 200 = SweepOutcome.deadlocked stateX :=
  tp2_hit_sweep_deadlocks stateX "T1" tradeX 200 (by decide) (by decide) (by decide)

/-- Claim C10: each of the three transition operations is a no-op for a trade
id that is not in the open set: the open set and the history are unchanged,
and in particular no history entry is appended. -/
theorem missing_trade_transitions_noop (s : TradeState) (trade_id : String)
    (h : alistLookup s.active_trades trade_id = none) :
    handle_sl_hit s trade_id = s ∧ handle_tp2_hit s trade_id = s ∧
      move_to_breakeven s trade_id = s := by
  unfold handle_sl_hit handle_tp2_hit move_to_breakeven
  rw [h]
  exact ⟨rfl, rfl, rfl⟩

theorem missing_trade_transitions_noop_witness :
    handle_sl_hit ⟨[], []⟩ "T9" = (⟨[], []⟩ : TradeState) ∧
    handle_tp2_hit ⟨[], []⟩ "T9" = (⟨[], []⟩ : TradeState) ∧
    move_to_breakeven ⟨[], []⟩ "T9" = (⟨[], []⟩ : TradeState) :=
  missing_trade_transitions_noop ⟨[], []⟩ "T9" rfl

/-- Claim C3 (code bug): the first price update satisfying the breakeven
condition and no higher-priority condition never completes the claimed
transition: move_to_breakeven re-acquires the non-reentrant trade lock the
sweep already holds, so the body deadlocks with the registry unchanged: the
stop is never moved to the entry and the breakeven flag is never set. In
contrast, a price update satisfying no condition completes with the state
untouched. -/
theorem breakeven_sweep_deadlocks (s : TradeState) (trade_id : String) (t : Trade)
    (price : Rat)
    (hlook : alistLookup s.active_trades trade_id = some t) :
    (t.breakeven = false → ¬ sl_hit_cond t price → ¬ tp2_hit_cond t price →
      tp1_reach_cond t price →
      check_market_conditions_trade s trade_id price = SweepOutcome.deadlocked s) ∧
    (¬ sl_hit_cond t price → ¬ tp2_hit_cond t price →
      ¬ (t.breakeven = false ∧ tp1_reach_cond t price) →
      check_market_conditions_trade s trade_id price = SweepOutcome.completed s) := by
  constructor
  · intro hbe hnsl hntp2 htp1
    unfold check_market_conditions_trade
    rw [hlook]
    simp only [if_neg hnsl, if_neg hntp2, if_pos (And.intro hbe htp1)]
  · intro hnsl hntp2 hnbe
    unfold check_market_conditions_trade
    rw [hlook]
    simp only [if_neg hnsl, if_neg hntp2, if_neg hnbe]

theorem breakeven_sweep_deadlocks_witness :
    check_market_conditions_trade stateX "T1" 160 = SweepOutcome.deadlocked stateX :=
  (breakeven_sweep_deadlocks stateX "T1" tradeX 160 (by decide)).1
    (by decide) (by decide) (by decide) (by decide)

/-- With both sequences long enough, analyze_price_action is the breakout
rule followed by the record assembly. -/
theorem analyze_price_action_eq (symbol : String) (c0 prev cur : Candle)
    (rest rest1 : List Candle) :
    analyze_price_action symbol (some (c0 :: prev :: rest)) (some (cur :: rest1)) =
      Option.map (analysis_of_signal symbol (calculate_winrate (c0 :: prev :: rest)))
        (price_action_signal prev.high prev.low cur.close) := by
  cases hs : price_action_signal prev.high prev.low cur.close with
  | none => simp only [analyze_price_action, hs, Option.map_none']
  | some sig =>
      simp only [analyze_price_action, hs, Option.map_some']
      rfl

/-- Claim C4: with both sequences at their minimum lengths and a well-formed
previous candle, the analysis yields no signal exactly when the latest entry
close lies in the closed interval from the previous low to the previous high
(a close equal to either bound is not a breakout), while a close strictly
above the previous high always yields a BUY signal and one strictly below the
previous low always yields a SELL signal. -/
theorem no_signal_iff_price_inside_prev_range (symbol : String) (c0 prev cur : Candle)
    (rest rest1 : List Candle)
    (hlh : prev.low ≤ prev.high) :
    (analyze_price_action symbol (some (c0 :: prev :: rest)) (some (cur :: rest1)) = none ↔
      (prev.low ≤ cur.close ∧ cur.close ≤ prev.high)) ∧
    (prev.high < cur.close →
      ∃ a, analyze_price_action symbol (some (c0 :: prev :: rest)) (some (cur :: rest1)) =
          some a ∧ a.signal = "BUY") ∧
    (cur.close < prev.low →
      ∃ a, analyze_price_action symbol (some (c0 :: prev :: rest)) (some (cur :: rest1)) =
          some a ∧ a.signal = "SELL") := by
  have heq := analyze_price_action_eq symbol c0 prev cur rest rest1
  by_cases hH : prev.high < cur.close
  · have hsig : price_action_signal prev.high prev.low cur.close =
        some { direction := "BUY", entry := cur.close, sl := prev.low,
               tp1 := cur.close + 2 * (cur.close - prev.low),
               tp2 := cur.close + 4 * (cur.close - prev.low) } := by
      unfold price_action_signal
      rw [if_pos hH]
    rw [heq, hsig]
    refine ⟨?_, ?_, ?_⟩
    · simp only [Option.map_some']
      constructor
      · intro hcontra
        exact Option.noConfusion hcontra
      · intro hin
        exact absurd hH (not_lt.mpr hin.2)
    · intro _
      exact ⟨_, rfl, rfl⟩
    · intro hL
      exact absurd hH (not_lt.mpr (le_of_lt (lt_of_lt_of_le hL hlh)))
  · by_cases hL : cur.close < prev.low
    · have hsig : price_action_signal prev.high prev.low cur.close =
          some { direction := "SELL", entry := cur.close, sl := prev.high,
                 tp1 := cur.close - 2 * (prev.high - cur.close),
                 tp2 := cur.close - 4 * (prev.high - cur.close) } := by
        unfold price_action_signal
        rw [if_neg hH, if_pos hL]
      rw [heq, hsig]
      refine ⟨?_, ?_, ?_⟩
      · simp only [Option.map_some']
        constructor
        · intro hcontra
          exact Option.noConfusion hcontra
        · intro hin
          exact absurd hL (not_lt.mpr hin.1)
      · intro hcontra
        exact absurd hcontra hH
      · intro _
        exact ⟨_, rfl, rfl⟩
    · have hsig : price_action_signal prev.high prev.low cur.close = none := by
        unfold price_action_signal
        rw [if_neg hH, if_neg hL]
      rw [heq, hsig]
      refine ⟨?_, ?_, ?_⟩
      · exact iff_of_true rfl ⟨not_lt.mp hL, not_lt.mp hH⟩
      · intro hcontra
        exact absurd hcontra hH
      · intro hcontra
        exact absurd hcontra hL

theorem no_signal_iff_price_inside_prev_range_witness :
    ((95 : Rat) ≤ 110) ∧
    analyze_price_action "X" (some [candle_a0, candle_prev]) (some [candle_e]) ≠ none ∧
    (∃ a, analyze_price_action "X" (some [candle_a0, candle_prev]) (some [candle_e]) =
        some a ∧ a.signal = "BUY") := by
  have h := no_signal_iff_price_inside_prev_range "X" candle_a0 candle_prev candle_e
    [] [] (by decide)
  refine ⟨by norm_num, ?_, h.2.1 (by decide)⟩
  intro hnone
  have hin := h.1.mp hnone
  have : ¬ ((115 : Rat) ≤ 110) := by norm_num
  exact this hin.2

/-- Claim C5: on the concrete scenario (previous analysis candle with high
110 and low 95, latest entry close 115) the analysis returns a BUY signal
with entry 115, stop 95, take-profit-1 155 and take-profit-2 195; and for
every produced signal over a well-formed range, the take-profit-2 distance is
twice the take-profit-1 distance, with take-profit-1 at two and take-profit-2
at four risk units from the entry, signed per direction. -/
theorem breakout_scenario_and_tp_levels :
    (analyze_price_action "X" (some [candle_a0, candle_prev]) (some [candle_e]) =
      some { symbol := "X", signal := "BUY", winrate := none, entry := 115, sl := 95,
             tp1 := 155, tp2 := 195, position_size := 5 }) ∧
    (∀ (ph pl price : Rat) (sig : Signal), pl ≤ ph →
      price_action_signal ph pl price = some sig →
      (sig.tp2 - sig.entry = 2 * (sig.tp1 - sig.entry) ∧
       (sig.direction = "BUY" →
         sig.tp1 = sig.entry + 2 * |sig.entry - sig.sl| ∧
         sig.tp2 = sig.entry + 4 * |sig.entry - sig.sl|) ∧
       (sig.direction = "SELL" →
         sig.tp1 = sig.entry - 2 * |sig.entry - sig.sl| ∧
         sig.tp2 = sig.entry - 4 * |sig.entry - sig.sl|))) := by
  constructor
  · rw [analyze_price_action_eq "X" candle_a0 candle_prev candle_e [] []]
    have hsig : price_action_signal candle_prev.high candle_prev.low candle_e.close =
        some sigX := by
      unfold price_action_signal
      norm_num [candle_prev, candle_e, sigX]
    rw [hsig]
    simp only [Option.map_some']
    unfold analysis_of_signal sigX
    norm_num [calculate_winrate, calculate_position_size,
      DEFAULT_ACCOUNT_BALANCE, RISK_PERCENTAGE, candle_a0, candle_prev,
      abs_of_nonneg]
  · intro ph pl price sig hle hsig
    unfold price_action_signal at hsig
    by_cases hH : ph < price
    · rw [if_pos hH] at hsig
      injection hsig with hsig
      subst hsig
      have habs : |price - pl| = price - pl :=
        abs_of_nonneg (by linarith)
      refine ⟨by ring, ?_, ?_⟩
      · intro _
        constructor
        · simp only [habs]
        · simp only [habs]
      · intro hdir
        simp at hdir
    · rw [if_neg hH] at hsig
      by_cases hL : price < pl
      · rw [if_pos hL] at hsig
        injection hsig with hsig
        subst hsig
        have habs : |price - ph| = ph - price := by
          rw [abs_of_nonpos (by linarith)]
          ring
        refine ⟨by ring, ?_, ?_⟩
        · intro hdir
          simp at hdir
        · intro _
          constructor
          · simp only [habs]
          · simp only [habs]
      · rw [if_neg hL] at hsig
        exact Option.noConfusion hsig

theorem breakout_scenario_and_tp_levels_witness :
    ((95 : Rat) ≤ 110) ∧
    price_action_signal 110 95 115 = some sigX ∧
    (sigX.tp2 - sigX.entry = 2 * (sigX.tp1 - sigX.entry)) := by
  have hsig : price_action_signal 110 95 115 = some sigX := by
    unfold price_action_signal
    norm_num [sigX]
  exact ⟨by norm_num, hsig,
    (breakout_scenario_and_tp_levels.2 110 95 115 sigX (by norm_num) hsig).1⟩

/-- Claim C8: when the analysis sequence is absent or has fewer than two
candles, or the entry sequence is absent or empty, the analysis returns none
with no partial signal. -/
theorem insufficient_data_fail_closed (symbol : String)
    (df_15m df_1m : Option (List Candle))
    (h : df_15m = none ∨ (∃ l, df_15m = some l ∧ l.length < 2) ∨
         df_1m = none ∨ df_1m = some []) :
    analyze_price_action symbol df_15m df_1m = none := by
  rcases h with h | ⟨l, hl, hlen⟩ | h | h
  · subst h
    cases df_1m with
    | none => rfl
    | some l1 =>
        cases l1 with
        | nil => rfl
        | cons a t => rfl
  · subst hl
    cases l with
    | nil =>
        cases df_1m with
        | none => rfl
        | some l1 =>
            cases l1 with
            | nil => rfl
            | cons a t => rfl
    | cons x tail =>
        cases tail with
        | nil =>
            cases df_1m with
            | none => rfl
            | some l1 =>
                cases l1 with
                | nil => rfl
                | cons a t => rfl
        | cons y t2 =>
            simp only [List.length_cons] at hlen
            omega
  · subst h
    cases df_15m with
    | none => rfl
    | some l =>
        cases l with
        | nil => rfl
        | cons a t =>
            cases t with
            | nil => rfl
            | cons b t2 => rfl
  · subst h
    cases df_15m with
    | none => rfl
    | some l =>
        cases l with
        | nil => rfl
        | cons a t =>
            cases t with
            | nil => rfl
            | cons b t2 => rfl

theorem insufficient_data_fail_closed_witness :
    analyze_price_action "EURUSD" none none = none :=
  insufficient_data_fail_closed "EURUSD" none none (Or.inl rfl)

/-- Lookup after ensuring the symbol key exists: always some, holding the
previously stored subscriber list or the freshly installed empty one. -/
theorem alistLookup_ensure_symbol (user_alerts : List (String × List String))
    (symbol : String) :
    alistLookup (ensure_symbol user_alerts symbol) symbol =
      some ((alistLookup user_alerts symbol).getD []) := by
  unfold ensure_symbol
  cases h : alistLookup user_alerts symbol with
  | none => simp [alistLookup_set_self]
  | some l => simp [h]

/-- Ensuring a key that is already present changes nothing. -/
theorem ensure_symbol_eq_of_mem (a : List (String × List String)) (symbol : String)
    (l : List String) (h : alistLookup a symbol = some l) :
    ensure_symbol a symbol = a := by
  unfold ensure_symbol
  rw [h]

/-- A subscribe by a user already present in the stored subscriber list is a
no-op reporting the already-active outcome. -/
theorem subscribe_already_of_mem (a : List (String × List String)) (symbol user : String)
    (l : List String) (hl : alistLookup a symbol = some l) (hul : user ∈ l) :
    subscribe a symbol user = (a, SubscribeResult.alreadyActive) := by
  have hid := ensure_symbol_eq_of_mem a symbol l hl
  have hcond : user ∈ (alistLookup (ensure_symbol a symbol) symbol).getD [] := by
    rw [hid, hl]
    exact hul
  unfold subscribe
  rw [if_pos hcond, hid]

/-- Claim C6 counterexample: the data-access function of the source keeps no
cache, so two consecutive get calls for the same (instrument, interval) key
perform two external candle fetches, not one, and each returns whatever the
external source answers for that call, so the two calls can return different
sequences even within any freshness window. -/
theorem cache_two_calls_two_fetches_counterexample :
    count_candle_fetches ((get_deriv_data [] (some [candleA]) "BTCUSD" "1min").2 ++
        (get_deriv_data [] (some [candleB]) "BTCUSD" "1min").2) = 2 ∧
    (get_deriv_data [] (some [candleA]) "BTCUSD" "1min").1 ≠
      (get_deriv_data [] (some [candleB]) "BTCUSD" "1min").1 := by
  decide

/-- Claim C6 amended: get_deriv_data maintains no cache: no state is kept
between calls, so no cached or stale entry can ever be served; every call
goes to the external source synchronously. For a crypto or synthetic
instrument, each call performs exactly one candle fetch and returns exactly
the response of that fetch. For every other instrument, each call first
performs the active-symbols listing; if the resolved symbol is active it
performs exactly one candle fetch and returns its response, and otherwise it
performs no candle fetch at all and returns none. Consequently any call that
returns candle data performed its own candle fetch, and two consecutive such
calls for the same key perform two candle fetches, not one. -/
theorem get_deriv_data_no_cache (activeList : List String) (r : Option (List Candle))
    (symbol interval : String) :
    (((convert_symbol symbol).category = some "crypto" ∨
      (convert_symbol symbol).category = some "synthetic") →
      get_deriv_data activeList r symbol interval =
        (r, [FetchEvent.candles (convert_symbol symbol).symbol
              (GRANULARITY_MAP interval)])) ∧
    ((convert_symbol symbol).category ≠ some "crypto" →
      (convert_symbol symbol).category ≠ some "synthetic" →
      ((convert_symbol symbol).symbol ∈ activeList →
        get_deriv_data activeList r symbol interval =
          (r, [FetchEvent.activeSymbols,
               FetchEvent.candles (convert_symbol symbol).symbol
                 (GRANULARITY_MAP interval)])) ∧
      ((convert_symbol symbol).symbol ∉ activeList →
        get_deriv_data activeList r symbol interval =
          (none, [FetchEvent.activeSymbols]))) ∧
    (∀ (r2 : Option (List Candle)) (candles : List Candle),
      (get_deriv_data activeList r symbol interval).1 = some candles →
      count_candle_fetches ((get_deriv_data activeList r symbol interval).2 ++
        (get_deriv_data activeList r2 symbol interval).2) = 2) := by
  by_cases hcat : (convert_symbol symbol).category ≠ some "crypto" ∧
      (convert_symbol symbol).category ≠ some "synthetic"
  · refine ⟨?_, ?_, ?_⟩
    · intro h
      rcases h with h | h
      · exact absurd h hcat.1
      · exact absurd h hcat.2
    · intro _ _
      constructor
      · intro hmem
        unfold get_deriv_data
        simp [if_pos hcat, if_pos hmem]
      · intro hmem
        unfold get_deriv_data
        simp [if_pos hcat, if_neg hmem]
    · intro r2 candles hres
      by_cases hmem : (convert_symbol symbol).symbol ∈ activeList
      · have h1 : get_deriv_data activeList r symbol interval =
            (r, [FetchEvent.activeSymbols,
                 FetchEvent.candles (convert_symbol symbol).symbol
                   (GRANULARITY_MAP interval)]) := by
          unfold get_deriv_data
          simp [if_pos hcat, if_pos hmem]
        have h2 : get_deriv_data activeList r2 symbol interval =
            (r2, [FetchEvent.activeSymbols,
                  FetchEvent.candles (convert_symbol symbol).symbol
                    (GRANULARITY_MAP interval)]) := by
          unfold get_deriv_data
          simp [if_pos hcat, if_pos hmem]
        rw [h1, h2]
        rfl
      · have h1 : get_deriv_data activeList r symbol interval =
            (none, [FetchEvent.activeSymbols]) := by
          unfold get_deriv_data
          simp [if_pos hcat, if_neg hmem]
        rw [h1] at hres
        exact Option.noConfusion hres
  · have hall : ∀ (r0 : Option (List Candle)),
        get_deriv_data activeList r0 symbol interval =
          (r0, [FetchEvent.candles (convert_symbol symbol).symbol
                 (GRANULARITY_MAP interval)]) := by
      intro r0
      unfold get_deriv_data
      simp [if_neg hcat]
    refine ⟨fun _ => hall r, ?_, ?_⟩
    · intro hc1 hc2
      exact absurd ⟨hc1, hc2⟩ hcat
    · intro r2 candles hres
      rw [hall r, hall r2]
      rfl

theorem get_deriv_data_no_cache_witness :
    get_deriv_data [] (some [candleA]) "BTCUSD" "1min" =
      (some [candleA], [FetchEvent.candles "BTCUSD" 60]) ∧
    count_candle_fetches ((get_deriv_data [] (some [candleA]) "BTCUSD" "1min").2 ++
        (get_deriv_data [] (some [candleB]) "BTCUSD" "1min").2) = 2 := by
  have h := get_deriv_data_no_cache [] (some [candleA]) "BTCUSD" "1min"
  have h1 := h.1 (Or.inl (by decide))
  constructor
  · rw [h1]
    decide
  · refine h.2.2 (some [candleB]) [candleA] ?_
    rw [h1]

/-- Claim C7: during a sweep, the trend step for a subscribed instrument
dispatches the change notification to each current subscriber exactly when a
previously stored trend exists and differs from the newly computed one, and
the very first observed trend is stored without any notification. -/
theorem trend_change_notification_law (previous_trends : List (String × String))
    (subscribers : List String) (symbol current_trend : String) :
    (alistLookup previous_trends symbol = none →
      trend_sweep_step previous_trends subscribers symbol current_trend =
        (alistSet previous_trends symbol current_trend, [])) ∧
    (∀ old, alistLookup previous_trends symbol = some old → old ≠ current_trend →
      trend_sweep_step previous_trends subscribers symbol current_trend =
        (alistSet previous_trends symbol current_trend,
         notify_trend_change symbol current_trend subscribers)) ∧
    (∀ old, alistLookup previous_trends symbol = some old → old = current_trend →
      (trend_sweep_step previous_trends subscribers symbol current_trend).2 = []) ∧
    (∀ u, u ∈ subscribers →
      ((u, symbol ++ " Trend Changed: " ++ current_trend) ∈
          (trend_sweep_step previous_trends subscribers symbol current_trend).2 ↔
        ∃ old, alistLookup previous_trends symbol = some old ∧
          old ≠ current_trend)) := by
  refine ⟨?_, ?_, ?_, ?_⟩
  · intro h
    unfold trend_sweep_step
    rw [h]
  · intro old h hne
    unfold trend_sweep_step
    rw [h]
    simp only [if_neg hne]
  · intro old h he
    unfold trend_sweep_step
    rw [h]
    simp only [if_pos he]
  · intro u hu
    unfold trend_sweep_step
    cases hlk : alistLookup previous_trends symbol with
    | none => simp
    | some old =>
        by_cases he : old = current_trend
        · subst he
          simp
        · simp [if_neg he, notify_trend_change, hu, he]

theorem trend_change_notification_law_witness :
    trend_sweep_step [("BTCUSD", "up")] ["u1", "u2"] "BTCUSD" "down" =
      ([("BTCUSD", "down")],
       [("u1", "BTCUSD Trend Changed: down"),
        ("u2", "BTCUSD Trend Changed: down")]) := by
  have h := (trend_change_notification_law [("BTCUSD", "up")] ["u1", "u2"]
    "BTCUSD" "down").2.1 "up" (by decide) (by decide)
  rw [h]
  decide

/-- Claim C9: subscribe is idempotent: a first subscribe appends the user to
the subscriber list of the instrument and reports activation; a repeated
subscribe by the same user leaves the store unchanged and reports the
distinct already-active outcome. -/
theorem subscribe_idempotent (user_alerts : List (String × List String))
    (symbol user : String) :
    (user ∉ subscribersOf user_alerts symbol →
      (subscribe user_alerts symbol user).2 = SubscribeResult.activated ∧
      subscribersOf (subscribe user_alerts symbol user).1 symbol =
        subscribersOf user_alerts symbol ++ [user]) ∧
    subscribe (subscribe user_alerts symbol user).1 symbol user =
      ((subscribe user_alerts symbol user).1, SubscribeResult.alreadyActive) := by
  have hens := alistLookup_ensure_symbol user_alerts symbol
  constructor
  · intro hnot
    have hcond : ¬ (user ∈
        (alistLookup (ensure_symbol user_alerts symbol) symbol).getD []) := by
      rw [hens]
      exact hnot
    constructor
    · unfold subscribe
      rw [if_neg hcond]
    · unfold subscribe
      rw [if_neg hcond]
      unfold subscribersOf
      rw [alistLookup_set_self, hens]
      rfl
  · have hkey : ∃ l, alistLookup (subscribe user_alerts symbol user).1 symbol =
        some l ∧ user ∈ l := by
      by_cases hmem : user ∈
          (alistLookup (ensure_symbol user_alerts symbol) symbol).getD []
      · refine ⟨(alistLookup user_alerts symbol).getD [], ?_, ?_⟩
        · unfold subscribe
          rw [if_pos hmem]
          exact hens
        · rw [hens] at hmem
          exact hmem
      · refine ⟨(alistLookup (ensure_symbol user_alerts symbol) symbol).getD []
            ++ [user], ?_, ?_⟩
        · unfold subscribe
          rw [if_neg hmem]
          exact alistLookup_set_self _ _ _
        · exact List.mem_append_right _ (List.mem_singleton.mpr rfl)
    obtain ⟨l, hl, hul⟩ := hkey
    exact subscribe_already_of_mem _ symbol user l hl hul

theorem subscribe_idempotent_witness :
    (subscribe [] "BTCUSD" "u1").2 = SubscribeResult.activated ∧
    subscribersOf (subscribe [] "BTCUSD" "u1").1 "BTCUSD" = ["u1"] ∧
    subscribe (subscribe [] "BTCUSD" "u1").1 "BTCUSD" "u1" =
      ((subscribe [] "BTCUSD" "u1").1, SubscribeResult.alreadyActive) := by
  have h := subscribe_idempotent [] "BTCUSD" "u1"
  have h1 := h.1 (by decide)
  refine ⟨h1.1, ?_, h.2⟩
  rw [h1.2]
  decide

end ShadowFx
